import Mathlib

/-!
Verification of the client-side session controller of a shared virtual
space (the frontend TownController / PlayerController pair and their
teleport-negotiation protocol), via a shallow embedding of the
TypeScript source into Lean.

Conventions of the embedding:
* JavaScript objects that are compared with reference equality (`===`,
  `Array.prototype.indexOf`) are modelled by wrapping their field data
  together with an allocation identifier `ref : Nat`; two distinct
  allocations carry distinct `ref`s, so structural equality of the
  wrapper coincides with JavaScript reference equality.
* Lodash `_.isEqual` (deep value equality) is modelled as equality of
  the field data alone, ignoring `ref`.
* `Date` timestamps are modelled as integers (epoch milliseconds).
* Methods that can throw (the `ourPlayer` getter's `assert`, the
  game-objects guard of `_teleportOurPlayerTo`) return `Option`/`Except`
  results; `none`/`error` marks a thrown exception.
* Socket emissions and local event-emitter notifications are collected
  in an explicit list of `TownEvent`s, in program order.
-/

set_option maxRecDepth 8192
set_option linter.unusedVariables false

namespace CoveyTown

/-- The wire shape of a teleport request:
`TeleportRequest = (fromPlayerId, toPlayerId, time)` from
CoveyTownSocket.d.ts, with `time : Date` as epoch milliseconds. -/
structure TeleportRequestData where
  fromPlayerId : String
  toPlayerId : String
  time : Int
deriving DecidableEq

/-- A `TeleportRequest` object on the JavaScript heap: the field data
plus its allocation identifier (reference). -/
structure TeleportRequestObj where
  ref : Nat
  data : TeleportRequestData
deriving DecidableEq

/-- The `PreviousTeleportRequestStatus` string enum from TypeUtils
(members observed across the sources: Default, Accepted, Denied,
Cancelled, Timeout). -/
inductive PreviousTeleportRequestStatus where
  | Default
  | Accepted
  | Denied
  | Cancelled
  | Timeout
deriving DecidableEq

/-- The type of `PlayerController._outgoingTeleport`:
`TeleportRequest | PreviousTeleportRequestStatus` (a record object or a
status string). -/
inductive OutgoingTeleport where
  | status (s : PreviousTeleportRequestStatus)
  | request (r : TeleportRequestObj)
deriving DecidableEq

/-- `PlayerLocation` from CoveyTownSocket.d.ts; coordinates are modelled
as integers (the claims only involve exact assignment and comparison),
`interactableID?` as an optional string (`none` = `undefined`). -/
structure PlayerLocation where
  x : Int
  y : Int
  rotation : String
  moving : Bool
  interactableID : Option String
deriving DecidableEq

/-- State of one `PlayerController` object.  `ref` is its allocation
identifier.  `hasGameObjects` records whether the optional
`gameObjects` property is set.  `outgoingTeleportTimer` is the
per-player countdown value (`number | undefined`); the property itself
is not among the provided PlayerController sources, so it is modelled
from the spec's data-model field `outgoingTimerSecondsRemaining?`. -/
structure Player where
  ref : Nat
  id : String
  userName : String
  location : PlayerLocation
  incomingTeleports : List TeleportRequestObj
  outgoingTeleport : OutgoingTeleport
  doNotDisturb : Bool
  outgoingTeleportTimer : Option Int
  hasGameObjects : Bool
deriving DecidableEq

/-- The `Player` wire model from CoveyTownSocket.d.ts. -/
structure PlayerModel where
  id : String
  userName : String
  location : PlayerLocation
  doNotDisturbState : Bool
deriving DecidableEq

/-- The observable notifications: socket emissions (`socket...`), the
TownController's own emitter (`local...`, plus the login-controller
reset), and the PlayerController emitter (`player...`). -/
inductive TownEvent where
  | socketTeleportRequest (r : TeleportRequestData)
  | socketTeleportCanceled (r : TeleportRequestData)
  | socketTeleportAccepted (r : TeleportRequestData)
  | socketTeleportDenied (r : TeleportRequestData)
  | socketTeleportSuccess (r : TeleportRequestData)
  | socketTeleportFailed (r : TeleportRequestData)
  | socketDoNotDisturbChange (b : Bool)
  | socketOutgoingTeleportTimerChange (v : Option Int)
  | socketPlayerMovement (loc : PlayerLocation)
  | localDisconnect
  | localPlayerMoved (ref : Nat)
  | localPlayersChanged
  | setTownControllerNull
  | playerOutgoingTeleportChange (v : OutgoingTeleport)
  | playerIncomingTeleportsChange (l : List TeleportRequestData)
  | playerDoNotDisturbChange (b : Bool)
  | playerMovement (loc : PlayerLocation)
  | playerOutgoingTeleportTimerChange (v : Option Int)
deriving DecidableEq

/-! ### PlayerController operations (frontend/src/classes/PlayerController.ts) -/

/-- Lodash `_.isEqual` on two teleport-request objects: deep value
equality of the three fields, independent of object identity. -/
def isEqual (a b : TeleportRequestObj) : Bool :=
  decide (a.data = b.data)

/-- `PlayerController.addIncomingTeleport`: push and notify only when no
value-equal request is already in the list. -/
def addIncomingTeleport (p : Player) (request : TeleportRequestObj) :
    Player × List TownEvent :=
  match p.incomingTeleports.find? (fun teleport => isEqual teleport request) with
  | none =>
    let p2 : Player :=
      { p with incomingTeleports := p.incomingTeleports ++ [request] }
    (p2, [TownEvent.playerIncomingTeleportsChange (p2.incomingTeleports.map (fun t => t.data))])
  | some _ => (p, [])

/-- `PlayerController.removeIncomingTeleport`: when a value-equal
request is present, keep only the requests that are not value-equal to
it, and notify. -/
def removeIncomingTeleport (p : Player) (request : TeleportRequestObj) :
    Player × List TownEvent :=
  match p.incomingTeleports.find? (fun teleport => isEqual teleport request) with
  | some _ =>
    let p2 : Player :=
      { p with incomingTeleports :=
          p.incomingTeleports.filter (fun teleport => !(isEqual teleport request)) }
    (p2, [TownEvent.playerIncomingTeleportsChange (p2.incomingTeleports.map (fun t => t.data))])
  | none => (p, [])

/-- The `outgoingTeleport` setter: assign and emit only when the new
value differs (JavaScript `!==`: value comparison for the status
strings, reference comparison for request objects). -/
def setOutgoingTeleport (p : Player) (request : OutgoingTeleport) :
    Player × List TownEvent :=
  if p.outgoingTeleport ≠ request then
    ({ p with outgoingTeleport := request },
     [TownEvent.playerOutgoingTeleportChange request])
  else (p, [])

/-- The `doNotDisturb` setter: assign and emit only on an actual
change. -/
def setDoNotDisturb (p : Player) (newValue : Bool) : Player × List TownEvent :=
  if newValue ≠ p.doNotDisturb then
    ({ p with doNotDisturb := newValue },
     [TownEvent.playerDoNotDisturbChange newValue])
  else (p, [])

/-- The `location` setter: assign, update the game component (sprite
only, not modelled), and emit a movement notification. -/
def setLocation (p : Player) (newLocation : PlayerLocation) :
    Player × List TownEvent :=
  ({ p with location := newLocation }, [TownEvent.playerMovement newLocation])

/-- Modelled from the spec: the PlayerController property behind
`outgoingTimerSecondsRemaining?` (called `outgoingTeleportTimer` by its
callers in TownController); assignment stores the value and raises the
player's `outgoingTeleportTimerChange` notification. -/
def setOutgoingTeleportTimer (p : Player) (newValue : Option Int) :
    Player × List TownEvent :=
  ({ p with outgoingTeleportTimer := newValue },
   [TownEvent.playerOutgoingTeleportTimerChange newValue])

/-- `PlayerController.fromPlayerModel`: the constructor takes only id,
user name and location; incoming list starts empty, outgoing starts at
the Default status, do-not-disturb starts false. -/
def fromPlayerModel (modelPlayer : PlayerModel) (freshRef : Nat) : Player :=
  { ref := freshRef
    id := modelPlayer.id
    userName := modelPlayer.userName
    location := modelPlayer.location
    incomingTeleports := []
    outgoingTeleport := OutgoingTeleport.status PreviousTeleportRequestStatus.Default
    doNotDisturb := false
    outgoingTeleportTimer := none
    hasGameObjects := false }

/-- No two requests in a list carry the same `(fromPlayerId, toPlayerId,
time)` value. -/
abbrev NoDupValues (l : List TeleportRequestObj) : Prop :=
  l.Pairwise (fun a b => a.data ≠ b.data)

/-- An example player with an empty incoming list, used by witnesses. -/
def emptyPlayerA : Player :=
  { ref := 0, id := "A", userName := "a"
    location := { x := 0, y := 0, rotation := "front", moving := false, interactableID := none }
    incomingTeleports := []
    outgoingTeleport := OutgoingTeleport.status PreviousTeleportRequestStatus.Default
    doNotDisturb := false, outgoingTeleportTimer := none, hasGameObjects := false }

/-- A request object B -> A at time 5. -/
def reqBA5 : TeleportRequestObj :=
  { ref := 1, data := { fromPlayerId := "B", toPlayerId := "A", time := 5 } }

/-- A second, value-equal allocation of the same B -> A request. -/
def reqBA5b : TeleportRequestObj :=
  { ref := 2, data := { fromPlayerId := "B", toPlayerId := "A", time := 5 } }

/-! ### TownController state (frontend/src/classes/TownController.ts) -/

/-- The TownController fields the negotiation protocol touches:
`_playersInternal`, the `_ourPlayer` reference (modelled as the
allocation id of our player object, `none` before `initialize`), and
the outgoing-teleport countdown interval and value. -/
structure TownState where
  players : List Player
  ourPlayerRef : Option Nat
  timerIntervalActive : Bool
  timerValue : Int
deriving DecidableEq

/-- The `ourPlayer` getter's lookup: the roster entry whose allocation
id is `_ourPlayer`'s.  `none` models the getter's failing `assert`. -/
def ourPlayer? (st : TownState) : Option Player :=
  match st.ourPlayerRef with
  | none => none
  | some r => st.players.find? (fun p => decide (p.ref = r))

/-- Mutating the object `_ourPlayer` points at: every roster slot
holding that object observes the update (aliasing). -/
def updateOur (st : TownState) (f : Player → Player) : TownState :=
  { st with players :=
      st.players.map (fun p => if some p.ref = st.ourPlayerRef then f p else p) }

/-- `TownController._playersByIDs`. -/
def playersByIDs (st : TownState) (playerIDs : List String) : List Player :=
  st.players.filter (fun eachPlayer => playerIDs.contains eachPlayer.id)

/-- `TownController._playerInSession`. -/
def playerInSession (st : TownState) (playerId : String) : Bool :=
  (playersByIDs st [playerId]).length == 1

/-! ### TownController teleport intent methods -/

/-- `TownController.emitTeleportRequest`.  `now` is the `new Date()`
timestamp and `freshRef` the allocation id of the new request object.
`none` models the exception of the `ourPlayer` getter. -/
def emitTeleportRequest (st : TownState) (toPlayerId : String) (now : Int)
    (freshRef : Nat) : Option (TownState × List TownEvent) :=
  match ourPlayer? st with
  | none => none
  | some our =>
    let request : TeleportRequestObj :=
      { ref := freshRef
        data := { fromPlayerId := our.id, toPlayerId := toPlayerId, time := now } }
    if playerInSession st toPlayerId then
      let res := setOutgoingTeleport our (OutgoingTeleport.request request)
      some (updateOur st (fun _ => res.1),
            res.2 ++ [TownEvent.socketTeleportRequest request.data])
    else
      some (st, [TownEvent.socketTeleportFailed request.data])

/-- `TownController.emitTeleportCanceled`: only acts when the current
outgoing value is a request object whose `toPlayerId` matches the
argument; emits the cancel on the socket, then sets the outgoing value
to the Cancelled status. -/
def emitTeleportCanceled (st : TownState) (toPlayerId : String) :
    Option (TownState × List TownEvent) :=
  match ourPlayer? st with
  | none => none
  | some our =>
    match our.outgoingTeleport with
    | OutgoingTeleport.request request =>
      if request.data.toPlayerId = toPlayerId then
        let res := setOutgoingTeleport our
          (OutgoingTeleport.status PreviousTeleportRequestStatus.Cancelled)
        some (updateOur st (fun _ => res.1),
              [TownEvent.socketTeleportCanceled request.data] ++ res.2)
      else some (st, [])
    | OutgoingTeleport.status _ => some (st, [])

/-- `TownController.emitTeleportAccepted`: the guard is
`incomingTeleports.indexOf(request) !== -1`, i.e. presence of the very
same object (JavaScript reference equality); on success remove (by
value) and emit the accept, otherwise emit a failure. -/
def emitTeleportAccepted (st : TownState) (request : TeleportRequestObj) :
    Option (TownState × List TownEvent) :=
  match ourPlayer? st with
  | none => none
  | some our =>
    if request ∈ our.incomingTeleports then
      let res := removeIncomingTeleport our request
      some (updateOur st (fun _ => res.1),
            res.2 ++ [TownEvent.socketTeleportAccepted request.data])
    else
      some (st, [TownEvent.socketTeleportFailed request.data])

/-- `TownController.emitTeleportDenied`: same reference-equality guard
as `emitTeleportAccepted`, emitting the deny instead. -/
def emitTeleportDenied (st : TownState) (request : TeleportRequestObj) :
    Option (TownState × List TownEvent) :=
  match ourPlayer? st with
  | none => none
  | some our =>
    if request ∈ our.incomingTeleports then
      let res := removeIncomingTeleport our request
      some (updateOur st (fun _ => res.1),
            res.2 ++ [TownEvent.socketTeleportDenied request.data])
    else
      some (st, [TownEvent.socketTeleportFailed request.data])

/-- `TownController.emitDoNotDisturbChange`: emit the negated flag on
the socket, then toggle our player's flag through its setter. -/
def emitDoNotDisturbChange (st : TownState) : Option (TownState × List TownEvent) :=
  match ourPlayer? st with
  | none => none
  | some our =>
    let res := setDoNotDisturb our (!our.doNotDisturb)
    some (updateOur st (fun _ => res.1),
          [TownEvent.socketDoNotDisturbChange (!our.doNotDisturb)] ++ res.2)

/-! ### Outgoing countdown timer -/

/-- `TownController.emitOutgoingTeleportTimerChange`.  JavaScript
`!newValue` is true for both `undefined` and `0`, so the clearing
branch runs in either case: it calls `emitTeleportCanceled` with
`this.ourPlayer.id` (the local player's own id, not the outgoing
request's target), relays `undefined`, clears the player's timer value
and stops the interval. -/
def emitOutgoingTeleportTimerChange (st : TownState) (newValue : Option Int) :
    Option (TownState × List TownEvent) :=
  if newValue = none ∨ newValue = some 0 then
    match ourPlayer? st with
    | none => none
    | some our =>
      match emitTeleportCanceled st our.id with
      | none => none
      | some (st1, evs1) =>
        match ourPlayer? st1 with
        | none => none
        | some our1 =>
          let res := setOutgoingTeleportTimer our1 none
          let st2 := updateOur st1 (fun _ => res.1)
          let st3 :=
            if st2.timerIntervalActive then
              { st2 with timerIntervalActive := false }
            else st2
          some (st3,
            evs1 ++ [TownEvent.socketOutgoingTeleportTimerChange none] ++ res.2)
  else
    match newValue with
    | none => none
    | some v =>
      match ourPlayer? st with
      | none => none
      | some our =>
        let res := setOutgoingTeleportTimer our (some v)
        some (updateOur st (fun _ => res.1),
              [TownEvent.socketOutgoingTeleportTimerChange (some v)] ++ res.2)

/-- `TownController.startOutgoingTeleportTimer`: install the interval,
store the start value, and emit the initial timer change. -/
def startOutgoingTeleportTimer (st : TownState) (startValue : Int) :
    Option (TownState × List TownEvent) :=
  let st1 := { st with timerIntervalActive := true, timerValue := startValue }
  emitOutgoingTeleportTimerChange st1 (some startValue)

/-- One firing of the interval callback installed by
`startOutgoingTeleportTimer`: decrement the stored value and emit the
change.  The callback only fires while the interval is installed. -/
def timerTick (st : TownState) : Option (TownState × List TownEvent) :=
  if st.timerIntervalActive then
    let st1 := { st with timerValue := st.timerValue - 1 }
    emitOutgoingTeleportTimerChange st1 (some st1.timerValue)
  else some (st, [])

/-- `n` consecutive firings of the interval callback. -/
def runTicks : Nat → TownState → Option (TownState × List TownEvent)
  | 0, st => some (st, [])
  | n + 1, st =>
    match timerTick st with
    | none => none
    | some (st1, evs1) =>
      match runTicks n st1 with
      | none => none
      | some (st2, evs2) => some (st2, evs1 ++ evs2)

/-! ### Socket listeners and teardown -/

/-- `TownController.emitMovement`: socket emission first, then the
player's `location` setter, then the town-level `playerMoved`
notification. -/
def emitMovement (st : TownState) (newLocation : PlayerLocation) :
    Option (TownState × List TownEvent) :=
  match ourPlayer? st with
  | none => none
  | some our =>
    let res := setLocation our newLocation
    some (updateOur st (fun _ => res.1),
          [TownEvent.socketPlayerMovement newLocation] ++ res.2 ++
            [TownEvent.localPlayerMoved our.ref])

/-- `TownController._teleportOurPlayerTo`: throws (`none`) when our
player's game objects are absent; otherwise copies the target location
field by field (every field is defined in the model) and calls
`emitMovement`. -/
def teleportOurPlayerTo (st : TownState) (otherPlayerLocation : PlayerLocation) :
    Option (TownState × List TownEvent) :=
  match ourPlayer? st with
  | none => none
  | some our =>
    if our.hasGameObjects then
      emitMovement st otherPlayerLocation
    else none

/-- Body of the `teleportAccepted` socket listener (the part inside
`try`).  An `error` result carries the state and events accumulated
before the throw, which the `catch` preserves.  Casting a status string
to `TeleportRequest` makes `currentRequest.toPlayerId` the value
`undefined`, so the match check is simply false in that case. -/
def handleTeleportAcceptedBody (st : TownState) (request : TeleportRequestData) :
    Except (TownState × List TownEvent) (TownState × List TownEvent) :=
  match ourPlayer? st with
  | none => Except.error (st, [])
  | some our =>
    let isMatch : Bool :=
      decide (request.fromPlayerId = our.id) &&
      (match our.outgoingTeleport with
       | OutgoingTeleport.request current =>
         decide (request.toPlayerId = current.data.toPlayerId)
       | OutgoingTeleport.status _ => false)
    if isMatch then
      let res := setOutgoingTeleport our
        (OutgoingTeleport.status PreviousTeleportRequestStatus.Accepted)
      let st1 := updateOur st (fun _ => res.1)
      match st.players.filter (fun player => decide (player.id = request.toPlayerId)) with
      | [otherPlayer] =>
        match teleportOurPlayerTo st1 otherPlayer.location with
        | some (st2, evs2) =>
          Except.ok (st2, res.2 ++ evs2 ++ [TownEvent.socketTeleportSuccess request])
        | none => Except.error (st1, res.2)
      | _ =>
        Except.ok (st1, res.2 ++ [TownEvent.socketTeleportFailed request])
    else Except.ok (st, [])

/-- The `teleportAccepted` socket listener: the body wrapped in
`try`/`catch`, the catch emitting a `teleportFailed`. -/
def handleTeleportAccepted (st : TownState) (request : TeleportRequestData) :
    TownState × List TownEvent :=
  match handleTeleportAcceptedBody st request with
  | Except.ok res => res
  | Except.error (st1, evs) => (st1, evs ++ [TownEvent.socketTeleportFailed request])

/-- The `townClosing` socket listener: emit `disconnect` to local
listeners and reset the login controller. -/
def handleTownClosing (st : TownState) : TownState × List TownEvent :=
  (st, [TownEvent.localDisconnect, TownEvent.setTownControllerNull])

/-- `emitTeleportDenied` applied to each element of a captured snapshot
of the incoming list (the JavaScript iteration runs over the array
reference read before the first removal reassigns the field). -/
def denyEach (st : TownState) (requests : List TeleportRequestObj) :
    Option (TownState × List TownEvent) :=
  match requests with
  | [] => some (st, [])
  | request :: rest =>
    match emitTeleportDenied st request with
    | none => none
    | some (st1, evs1) =>
      match denyEach st1 rest with
      | none => none
      | some (st2, evs2) => some (st2, evs1 ++ evs2)

/-- `TownController._clearTeleports`: deny every incoming request, then
cancel the outgoing one (addressed by its target) if it is a request
object. -/
def clearTeleports (st : TownState) : Option (TownState × List TownEvent) :=
  match ourPlayer? st with
  | none => none
  | some our =>
    match denyEach st our.incomingTeleports with
    | none => none
    | some (st1, evs1) =>
      match ourPlayer? st1 with
      | none => none
      | some our1 =>
        match our1.outgoingTeleport with
        | OutgoingTeleport.request outRequest =>
          match emitTeleportCanceled st1 outRequest.data.toPlayerId with
          | none => none
          | some (st2, evs2) => some (st2, evs1 ++ evs2)
        | OutgoingTeleport.status _ => some (st1, evs1)

/-- The do-not-disturb toggle handler from PlayersList (the button
rendered for our own roster row): toggle the flag, call
`emitTeleportCanceled` with our own player id, then deny every request
in the incoming list (snapshot read after the first two calls). -/
def doNotDisturbOnClick (st : TownState) : Option (TownState × List TownEvent) :=
  match emitDoNotDisturbChange st with
  | none => none
  | some (st1, evs1) =>
    match ourPlayer? st1 with
    | none => none
    | some our1 =>
      match emitTeleportCanceled st1 our1.id with
      | none => none
      | some (st2, evs2) =>
        match ourPlayer? st2 with
        | none => none
        | some our2 =>
          match denyEach st2 our2.incomingTeleports with
          | none => none
          | some (st3, evs3) => some (st3, evs1 ++ evs2 ++ evs3)

/-- The `playerMoved` socket listener.  The first roster entry with the
event's id is updated: for our own player only the interactable-zone id
is patched (client-predicted x/y retained); for a remote player the
whole location is assigned through the setter; with no matching entry a
new player is created from the payload and appended (through the
`_players` setter, which notifies before assigning). -/
def handlePlayerMoved (st : TownState) (movedPlayer : PlayerModel) (freshRef : Nat) :
    TownState × List TownEvent :=
  match st.players.find? (fun eachPlayer => decide (eachPlayer.id = movedPlayer.id)) with
  | some playerToUpdate =>
    if some playerToUpdate.ref = st.ourPlayerRef then
      ({ st with players := st.players.map (fun p =>
          if p.ref = playerToUpdate.ref then
            { p with location :=
                { p.location with interactableID := movedPlayer.location.interactableID } }
          else p) },
       [TownEvent.localPlayerMoved playerToUpdate.ref])
    else
      ({ st with players := st.players.map (fun p =>
          if p.ref = playerToUpdate.ref then
            { p with location := movedPlayer.location }
          else p) },
       [TownEvent.playerMovement movedPlayer.location,
        TownEvent.localPlayerMoved playerToUpdate.ref])
  | none =>
    ({ st with players := st.players ++ [fromPlayerModel movedPlayer freshRef] },
     [TownEvent.localPlayersChanged, TownEvent.localPlayerMoved freshRef])

/-! ### Proximity calculator -/

/-- JavaScript truthiness of the optional `interactableID` string:
`undefined` and the empty string are falsy. -/
def truthyId (o : Option String) : Bool :=
  match o with
  | some s => !(s == "")
  | none => false

/-- The `isNearby` closure of `TownController.nearbyPlayers`.  Both
locations always exist in the model (the source's `p.location &&
this.ourPlayer.location` guard is vacuously true).  The source compares
`Math.sqrt(dx * dx + dy * dy) < 80`; over exact numbers this is
equivalent to `dx * dx + dy * dy < 6400`, which is the form used
here. -/
def isNearby (our p : Player) : Bool :=
  if truthyId our.location.interactableID || truthyId p.location.interactableID then
    p.location.interactableID == our.location.interactableID
  else
    decide ((p.location.x - our.location.x) * (p.location.x - our.location.x) +
      (p.location.y - our.location.y) * (p.location.y - our.location.y) < 6400)

/-- `TownController.nearbyPlayers`: filter the roster by `isNearby`
relative to our player; `none` models the `ourPlayer` getter's
assertion. -/
def nearbyPlayers (st : TownState) : Option (List Player) :=
  match ourPlayer? st with
  | none => none
  | some our => some (st.players.filter (fun p => isNearby our p))

/-! ### Concrete states used by counterexamples and witnesses -/

/-- Our player holding the single incoming request `reqBA5`. -/
def ourC1 : Player := { emptyPlayerA with incomingTeleports := [reqBA5] }

/-- A town whose roster holds only `ourC1`. -/
def stC1 : TownState :=
  { players := [ourC1], ourPlayerRef := some 0, timerIntervalActive := false, timerValue := 0 }

/-- A pending outgoing request A -> B at time 3 (allocation 3). -/
def reqAB3 : TeleportRequestObj :=
  { ref := 3, data := { fromPlayerId := "A", toPlayerId := "B", time := 3 } }

/-- An incoming request C -> A at time 7 (allocation 4). -/
def reqCA7 : TeleportRequestObj :=
  { ref := 4, data := { fromPlayerId := "C", toPlayerId := "A", time := 7 } }

/-- Remote player B. -/
def playerB : Player := { emptyPlayerA with ref := 10, id := "B", userName := "b" }

/-- Remote player C. -/
def playerC : Player := { emptyPlayerA with ref := 11, id := "C", userName := "c" }

/-- Our player with outgoing Pending A -> B. -/
def ourC2 : Player :=
  { emptyPlayerA with outgoingTeleport := OutgoingTeleport.request reqAB3 }

/-- A town with our player (outgoing Pending to B) plus B and C. -/
def stC2 : TownState :=
  { players := [ourC2, playerB, playerC], ourPlayerRef := some 0,
    timerIntervalActive := false, timerValue := 0 }

/-- A town with our idle player A and remote player B. -/
def stC3 : TownState :=
  { players := [emptyPlayerA, playerB], ourPlayerRef := some 0,
    timerIntervalActive := false, timerValue := 0 }

/-- Participant A requests a teleport to B (timestamp 0, allocation 20),
starts the countdown at the default 30, and 30 one-second interval
ticks elapse with no response from B. -/
def c3Run : Option (TownState × List TownEvent) :=
  match emitTeleportRequest stC3 "B" 0 20 with
  | none => none
  | some (st1, evs1) =>
    match startOutgoingTeleportTimer st1 30 with
    | none => none
    | some (st2, evs2) =>
      match runTicks 30 st2 with
      | none => none
      | some (st3, evs3) => some (st3, evs1 ++ evs2 ++ evs3)

/-- Our player with one incoming request and a pending outgoing
request. -/
def ourC4 : Player :=
  { emptyPlayerA with incomingTeleports := [reqBA5]
                      outgoingTeleport := OutgoingTeleport.request reqAB3 }

/-- A town where our player has live negotiation state (one incoming,
one pending outgoing). -/
def stC4 : TownState :=
  { players := [ourC4, playerB], ourPlayerRef := some 0,
    timerIntervalActive := false, timerValue := 0 }

/-- B's location, distinct from A's. -/
def locB : PlayerLocation :=
  { x := 500, y := 500, rotation := "right", moving := true, interactableID := none }

/-- Remote player B standing at `locB`. -/
def playerB5 : Player := { playerB with location := locB }

/-- Our player with outgoing Pending A -> B and game objects created. -/
def ourC5 : Player :=
  { emptyPlayerA with outgoingTeleport := OutgoingTeleport.request reqAB3
                      hasGameObjects := true }

/-- A town where B is resolvable: accept of A's request should move A
to B. -/
def stC5 : TownState :=
  { players := [ourC5, playerB5], ourPlayerRef := some 0,
    timerIntervalActive := false, timerValue := 0 }

/-- The same town with B gone (disconnected between accept and
resolution). -/
def stC5noB : TownState :=
  { players := [ourC5], ourPlayerRef := some 0,
    timerIntervalActive := false, timerValue := 0 }

/-- Our player as in `ourC5` but without game objects (resolution
throws). -/
def ourC5noGO : Player := { ourC5 with hasGameObjects := false }

/-- The resolvable town but with the local player's game objects
missing. -/
def stC5noGO : TownState :=
  { players := [ourC5noGO, playerB5], ourPlayerRef := some 0,
    timerIntervalActive := false, timerValue := 0 }

/-- Our player with two pending incoming requests and one pending
outgoing request. -/
def ourC6 : Player :=
  { emptyPlayerA with incomingTeleports := [reqBA5, reqCA7]
                      outgoingTeleport := OutgoingTeleport.request reqAB3 }

/-- The do-not-disturb toggle scenario town. -/
def stC6 : TownState :=
  { players := [ourC6, playerB, playerC], ourPlayerRef := some 0,
    timerIntervalActive := false, timerValue := 0 }

/-- A `playerMoved` payload for remote player B with a fresh location. -/
def movedB : PlayerModel :=
  { id := "B", userName := "b"
    location := { x := 7, y := 8, rotation := "left", moving := true,
                  interactableID := some "zone1" }
    doNotDisturbState := false }

/-- A `playerMoved` payload for our own player A with a fresh location
and zone. -/
def movedA : PlayerModel :=
  { id := "A", userName := "a"
    location := { x := 70, y := 80, rotation := "back", moving := true,
                  interactableID := some "zone2" }
    doNotDisturbState := false }

/-- A `playerMoved` payload for a player D absent from the roster. -/
def movedD : PlayerModel :=
  { id := "D", userName := "d"
    location := { x := 1, y := 2, rotation := "front", moving := false,
                  interactableID := none }
    doNotDisturbState := false }

/-! ### Event counting helpers -/

/-- Number of socket `teleportCanceled` emissions in an event list. -/
def countCanceled (evs : List TownEvent) : Nat :=
  (evs.filter (fun e => match e with
    | TownEvent.socketTeleportCanceled _ => true
    | _ => false)).length

/-- Number of socket `teleportDenied` emissions in an event list. -/
def countDenied (evs : List TownEvent) : Nat :=
  (evs.filter (fun e => match e with
    | TownEvent.socketTeleportDenied _ => true
    | _ => false)).length

/-- Number of `disconnect` notifications in an event list. -/
def countDisconnect (evs : List TownEvent) : Nat :=
  (evs.filter (fun e => match e with
    | TownEvent.localDisconnect => true
    | _ => false)).length

/-- Is the event an outbound socket emission? -/
def isSocketEvent (e : TownEvent) : Bool :=
  match e with
  | TownEvent.socketTeleportRequest _ => true
  | TownEvent.socketTeleportCanceled _ => true
  | TownEvent.socketTeleportAccepted _ => true
  | TownEvent.socketTeleportDenied _ => true
  | TownEvent.socketTeleportSuccess _ => true
  | TownEvent.socketTeleportFailed _ => true
  | TownEvent.socketDoNotDisturbChange _ => true
  | TownEvent.socketOutgoingTeleportTimerChange _ => true
  | TownEvent.socketPlayerMovement _ => true
  | _ => false

theorem find?_isEqual_eq_none {l : List TeleportRequestObj} {r : TeleportRequestObj}
    (h : ∀ t ∈ l, t.data ≠ r.data) :
    l.find? (fun teleport => isEqual teleport r) = none := by
  rw [List.find?_eq_none]
  intro t ht
  simp only [isEqual, decide_eq_true_eq]
  exact h t ht

/-- Claim C8: the incoming-requests list never contains two records with
identical `(fromPlayerId, toPlayerId, time)`: adding preserves the
no-duplicates invariant, adding a value-equal duplicate is a silent
no-op (starting from an empty list, two adds of the same value leave a
list of length 1), removing preserves the invariant, and removing a
request that is not present by value changes nothing and emits no
notification. -/
theorem incoming_teleports_no_duplicates (p : Player) (r r2 : TeleportRequestObj) :
    (NoDupValues p.incomingTeleports →
      NoDupValues (addIncomingTeleport p r).1.incomingTeleports) ∧
    (NoDupValues p.incomingTeleports →
      NoDupValues (removeIncomingTeleport p r).1.incomingTeleports) ∧
    (r2.data = r.data →
      addIncomingTeleport (addIncomingTeleport p r).1 r2 =
        ((addIncomingTeleport p r).1, [])) ∧
    (p.incomingTeleports = [] →
      (addIncomingTeleport p r).1.incomingTeleports.length = 1) ∧
    ((∀ t ∈ p.incomingTeleports, t.data ≠ r.data) →
      removeIncomingTeleport p r = (p, [])) := by
  refine ⟨?_, ?_, ?_, ?_, ?_⟩
  · intro h
    cases hf : p.incomingTeleports.find? (fun teleport => isEqual teleport r) with
    | none =>
      simp only [addIncomingTeleport, hf]
      have hnew : ∀ a ∈ p.incomingTeleports, a.data ≠ r.data := by
        intro a ha
        have := List.find?_eq_none.mp hf a ha
        simp only [isEqual, decide_eq_true_eq] at this
        exact this
      refine List.pairwise_append.mpr ⟨h, List.pairwise_singleton _ _, ?_⟩
      intro a ha b hb
      rw [List.mem_singleton] at hb
      subst hb
      exact hnew a ha
    | some _ =>
      simp only [addIncomingTeleport, hf]
      exact h
  · intro h
    cases hf : p.incomingTeleports.find? (fun teleport => isEqual teleport r) with
    | none =>
      simp only [removeIncomingTeleport, hf]
      exact h
    | some _ =>
      simp only [removeIncomingTeleport, hf]
      exact h.sublist (List.filter_sublist _)
  · intro h2
    cases hf : p.incomingTeleports.find? (fun teleport => isEqual teleport r) with
    | none =>
      have hfind : (p.incomingTeleports ++ [r]).find? (fun teleport => isEqual teleport r2) =
          some r := by
        rw [List.find?_append]
        rw [find?_isEqual_eq_none (fun t ht heq => ?_)]
        · simp [List.find?, isEqual, h2]
        · have := List.find?_eq_none.mp hf t ht
          simp only [isEqual, decide_eq_true_eq] at this
          exact this (heq.trans h2)
      simp [addIncomingTeleport, hf, hfind]
    | some t =>
      have hf2 : p.incomingTeleports.find? (fun teleport => isEqual teleport r2) =
          some t := by
        have hfun : (fun teleport => isEqual teleport r2) =
            (fun teleport => isEqual teleport r) := by
          funext teleport
          simp [isEqual, h2]
        rw [hfun, hf]
      simp [addIncomingTeleport, hf, hf2]
  · intro h
    simp [addIncomingTeleport, h, List.find?]
  · intro h
    simp only [removeIncomingTeleport, find?_isEqual_eq_none h]


/-! ### General lemmas about the embedding -/

theorem setOutgoingTeleport_fst (p : Player) (v : OutgoingTeleport) :
    (setOutgoingTeleport p v).1.outgoingTeleport = v ∧
    (setOutgoingTeleport p v).1.ref = p.ref ∧
    ((setOutgoingTeleport p v).2 = [] ∨
      (setOutgoingTeleport p v).2 = [TownEvent.playerOutgoingTeleportChange v]) := by
  unfold setOutgoingTeleport
  by_cases h : p.outgoingTeleport ≠ v
  · simp [h]
  · rw [not_not] at h
    simp [h]

theorem removeIncomingTeleport_ref (p : Player) (r : TeleportRequestObj) :
    (removeIncomingTeleport p r).1.ref = p.ref := by
  unfold removeIncomingTeleport
  cases hf : p.incomingTeleports.find? (fun teleport => isEqual teleport r) <;> simp

theorem find?_ref_update (l : List Player) (r : Nat) (q : Player) (hq : q.ref = r) :
    (l.map (fun p => if some p.ref = some r then q else p)).find?
        (fun p => decide (p.ref = r)) =
      (l.find? (fun p => decide (p.ref = r))).map (fun _ => q) := by
  induction l with
  | nil => rfl
  | cons a t ih =>
    by_cases ha : a.ref = r
    · have hga : (if some a.ref = some r then q else a) = q := by simp [ha]
      rw [List.map_cons, hga]
      rw [List.find?_cons_of_pos _ (by simp [hq]), List.find?_cons_of_pos _ (by simp [ha])]
      rfl
    · have hga : (if some a.ref = some r then q else a) = a := by simp [ha]
      rw [List.map_cons, hga]
      rw [List.find?_cons_of_neg _ (by simp [ha]), List.find?_cons_of_neg _ (by simp [ha])]
      exact ih

/-- Writing a ref-preserving value through the `_ourPlayer` alias leaves
that value as the `ourPlayer` getter's result. -/
theorem ourPlayer?_updateOur_const (st : TownState) (our q : Player)
    (hour : ourPlayer? st = some our) (hq : q.ref = our.ref) :
    ourPlayer? (updateOur st (fun _ => q)) = some q := by
  unfold ourPlayer? at hour ⊢
  unfold updateOur
  cases h : st.ourPlayerRef with
  | none => simp only [h] at hour; exact Option.noConfusion hour
  | some r =>
    simp only [h] at hour
    have hourref : our.ref = r := by
      have := List.find?_some hour
      simpa using this
    simp only [h]
    rw [find?_ref_update st.players r q (hq.trans hourref), hour]
    rfl

theorem removeIncomingTeleport_of_mem (p : Player) (r : TeleportRequestObj)
    (h : r ∈ p.incomingTeleports) :
    removeIncomingTeleport p r =
      ({ p with incomingTeleports :=
          p.incomingTeleports.filter (fun teleport => !(isEqual teleport r)) },
       [TownEvent.playerIncomingTeleportsChange
          ((p.incomingTeleports.filter (fun teleport => !(isEqual teleport r))).map
            (fun t => t.data))]) := by
  have hs : (p.incomingTeleports.find? (fun teleport => isEqual teleport r)).isSome :=
    List.find?_isSome.mpr ⟨r, h, by simp [isEqual]⟩
  cases hf : p.incomingTeleports.find? (fun teleport => isEqual teleport r) with
  | none => rw [hf] at hs; exact absurd hs (by simp)
  | some t => simp [removeIncomingTeleport, hf]

/-- Witness for `incoming_teleports_no_duplicates` at a concrete player
and requests. -/
theorem incoming_teleports_no_duplicates_witness :
    (reqBA5b.data = reqBA5.data) ∧
    (emptyPlayerA.incomingTeleports = []) ∧
    addIncomingTeleport (addIncomingTeleport emptyPlayerA reqBA5).1 reqBA5b =
      ((addIncomingTeleport emptyPlayerA reqBA5).1, []) ∧
    (addIncomingTeleport emptyPlayerA reqBA5).1.incomingTeleports.length = 1 := by
  refine ⟨by decide, by decide, ?_, ?_⟩
  · exact (incoming_teleports_no_duplicates emptyPlayerA reqBA5 reqBA5b).2.2.1 (by decide)
  · exact (incoming_teleports_no_duplicates emptyPlayerA reqBA5 reqBA5b).2.2.2.1 (by decide)

/-! ### Claim C1: accept/deny guarded by value equality -/

/-- Claim C1 (amended): `emitTeleportAccepted` and `emitTeleportDenied`
are allowed exactly when the request object itself (reference equality,
as JavaScript `indexOf`) is in the local incoming list — not when a
merely value-equal record is present; when allowed they remove every
value-equal record and send the corresponding event, otherwise they
send a `teleportFailed` event for the record, and in neither case do
they raise a local exception. -/
theorem accept_deny_guard_by_reference (st : TownState) (our : Player)
    (request : TeleportRequestObj) (hour : ourPlayer? st = some our) :
    (request ∈ our.incomingTeleports →
      emitTeleportAccepted st request =
        some (updateOur st (fun _ => (removeIncomingTeleport our request).1),
          (removeIncomingTeleport our request).2 ++
            [TownEvent.socketTeleportAccepted request.data]) ∧
      emitTeleportDenied st request =
        some (updateOur st (fun _ => (removeIncomingTeleport our request).1),
          (removeIncomingTeleport our request).2 ++
            [TownEvent.socketTeleportDenied request.data]) ∧
      (removeIncomingTeleport our request).1.incomingTeleports =
        our.incomingTeleports.filter (fun teleport => !(isEqual teleport request))) ∧
    (request ∉ our.incomingTeleports →
      emitTeleportAccepted st request =
        some (st, [TownEvent.socketTeleportFailed request.data]) ∧
      emitTeleportDenied st request =
        some (st, [TownEvent.socketTeleportFailed request.data])) := by
  constructor
  · intro hmem
    refine ⟨?_, ?_, ?_⟩
    · simp only [emitTeleportAccepted, hour]
      rw [if_pos hmem]
    · simp only [emitTeleportDenied, hour]
      rw [if_pos hmem]
    · rw [removeIncomingTeleport_of_mem our request hmem]
  · intro hmem
    constructor
    · simp only [emitTeleportAccepted, hour]
      rw [if_neg hmem]
    · simp only [emitTeleportDenied, hour]
      rw [if_neg hmem]

/-- Claim C1 counterexample: the value-equal record `reqBA5` is present
in the incoming list (only the allocation differs from `reqBA5b`), so
the claim requires accept and deny to succeed, yet both operations emit
`teleportFailed` and leave the state untouched. -/
theorem accept_deny_value_equality_counterexample :
    reqBA5 ∈ ourC1.incomingTeleports ∧
    reqBA5.data = reqBA5b.data ∧
    reqBA5 ≠ reqBA5b ∧
    ourPlayer? stC1 = some ourC1 ∧
    emitTeleportAccepted stC1 reqBA5b =
      some (stC1, [TownEvent.socketTeleportFailed reqBA5b.data]) ∧
    emitTeleportDenied stC1 reqBA5b =
      some (stC1, [TownEvent.socketTeleportFailed reqBA5b.data]) := by
  decide

/-- Witness for `accept_deny_guard_by_reference`: the guard succeeds on
the identical object and fails on a value-equal copy. -/
theorem accept_deny_guard_by_reference_witness :
    emitTeleportAccepted stC1 reqBA5 =
      some (updateOur stC1 (fun _ => (removeIncomingTeleport ourC1 reqBA5).1),
        (removeIncomingTeleport ourC1 reqBA5).2 ++
          [TownEvent.socketTeleportAccepted reqBA5.data]) ∧
    emitTeleportDenied stC1 reqBA5b =
      some (stC1, [TownEvent.socketTeleportFailed reqBA5b.data]) := by
  constructor
  · exact ((accept_deny_guard_by_reference stC1 ourC1 reqBA5 (by decide)).1 (by decide)).1
  · exact ((accept_deny_guard_by_reference stC1 ourC1 reqBA5b (by decide)).2 (by decide)).2

/-! ### Claim C2: at most one active outgoing negotiation -/

/-- Claim C2 (amended): the controller itself enforces no
single-outgoing guard: whenever the target id is in the roster,
`emitTeleportRequest` installs a fresh Pending record even while the
current outgoing value is itself a Pending request, which is silently
replaced (the at-most-one-active property is maintained only by the UI
disabling the request button while a request is outgoing). -/
theorem emit_request_overwrites_pending (st : TownState) (our : Player)
    (prev : TeleportRequestObj) (toPlayerId : String) (now : Int) (freshRef : Nat)
    (hour : ourPlayer? st = some our)
    (hpending : our.outgoingTeleport = OutgoingTeleport.request prev)
    (hsession : playerInSession st toPlayerId = true) :
    emitTeleportRequest st toPlayerId now freshRef =
      some (updateOur st (fun _ => (setOutgoingTeleport our (OutgoingTeleport.request
          { ref := freshRef
            data := { fromPlayerId := our.id, toPlayerId := toPlayerId, time := now } })).1),
        (setOutgoingTeleport our (OutgoingTeleport.request
          { ref := freshRef
            data := { fromPlayerId := our.id, toPlayerId := toPlayerId, time := now } })).2 ++
          [TownEvent.socketTeleportRequest
            { fromPlayerId := our.id, toPlayerId := toPlayerId, time := now }]) ∧
    (ourPlayer? (updateOur st (fun _ => (setOutgoingTeleport our (OutgoingTeleport.request
        { ref := freshRef
          data := { fromPlayerId := our.id, toPlayerId := toPlayerId, time := now } })).1))).map
        (fun p => p.outgoingTeleport) =
      some (OutgoingTeleport.request
        { ref := freshRef
          data := { fromPlayerId := our.id, toPlayerId := toPlayerId, time := now } }) := by
  constructor
  · simp [emitTeleportRequest, hour, hsession]
  · rw [ourPlayer?_updateOur_const st our _ hour (setOutgoingTeleport_fst our _).2.1]
    simp only [Option.map_some']
    rw [(setOutgoingTeleport_fst our _).1]

/-- Claim C2 counterexample: with the outgoing value the Pending record
`reqAB3` (A to B), requesting a teleport to C still installs a new
Pending record and sends a `teleportRequest`, although the claim
forbids creating a request unless the current value is Idle or a
terminal status. -/
theorem emit_request_while_pending_counterexample :
    (ourPlayer? stC2).map (fun p => p.outgoingTeleport) =
      some (OutgoingTeleport.request reqAB3) ∧
    (emitTeleportRequest stC2 "C" 9 7).map
        (fun res => ((ourPlayer? res.1).map (fun p => p.outgoingTeleport), res.2)) =
      some (some (OutgoingTeleport.request
          { ref := 7, data := { fromPlayerId := "A", toPlayerId := "C", time := 9 } }),
        [TownEvent.playerOutgoingTeleportChange (OutgoingTeleport.request
            { ref := 7, data := { fromPlayerId := "A", toPlayerId := "C", time := 9 } }),
         TownEvent.socketTeleportRequest
            { fromPlayerId := "A", toPlayerId := "C", time := 9 }]) := by
  decide

/-- Witness for `emit_request_overwrites_pending` at the concrete town
`stC2`. -/
theorem emit_request_overwrites_pending_witness :
    emitTeleportRequest stC2 "C" 9 7 =
      some (updateOur stC2 (fun _ => (setOutgoingTeleport ourC2 (OutgoingTeleport.request
          { ref := 7, data := { fromPlayerId := ourC2.id, toPlayerId := "C", time := 9 } })).1),
        (setOutgoingTeleport ourC2 (OutgoingTeleport.request
          { ref := 7, data := { fromPlayerId := ourC2.id, toPlayerId := "C", time := 9 } })).2 ++
          [TownEvent.socketTeleportRequest
            { fromPlayerId := ourC2.id, toPlayerId := "C", time := 9 }]) :=
  (emit_request_overwrites_pending stC2 ourC2 reqAB3 "C" 9 7 (by decide) (by decide)
    (by decide)).1

/-! ### Claim C7: roster guard of requestTeleport -/

/-- Claim C7: for a target id absent from the roster,
`emitTeleportRequest` leaves the state unchanged (so no Pending record
is ever produced), emits exactly one `teleportFailed` notification and
no `teleportRequest`; for a present target it installs a fresh Pending
record and emits exactly one `teleportRequest`. -/
theorem request_roster_guard (st : TownState) (our : Player)
    (toPlayerId : String) (now : Int) (freshRef : Nat)
    (hour : ourPlayer? st = some our) :
    (playerInSession st toPlayerId = false →
      emitTeleportRequest st toPlayerId now freshRef =
        some (st, [TownEvent.socketTeleportFailed
          { fromPlayerId := our.id, toPlayerId := toPlayerId, time := now }])) ∧
    (playerInSession st toPlayerId = true →
      emitTeleportRequest st toPlayerId now freshRef =
        some (updateOur st (fun _ => (setOutgoingTeleport our (OutgoingTeleport.request
            { ref := freshRef
              data := { fromPlayerId := our.id, toPlayerId := toPlayerId, time := now } })).1),
          (setOutgoingTeleport our (OutgoingTeleport.request
            { ref := freshRef
              data := { fromPlayerId := our.id, toPlayerId := toPlayerId, time := now } })).2 ++
            [TownEvent.socketTeleportRequest
              { fromPlayerId := our.id, toPlayerId := toPlayerId, time := now }]) ∧
      (ourPlayer? (updateOur st (fun _ => (setOutgoingTeleport our (OutgoingTeleport.request
          { ref := freshRef
            data := { fromPlayerId := our.id, toPlayerId := toPlayerId, time := now } })).1))).map
          (fun p => p.outgoingTeleport) =
        some (OutgoingTeleport.request
          { ref := freshRef
            data := { fromPlayerId := our.id, toPlayerId := toPlayerId, time := now } }) ∧
      ((setOutgoingTeleport our (OutgoingTeleport.request
          { ref := freshRef
            data := { fromPlayerId := our.id, toPlayerId := toPlayerId, time := now } })).2 = [] ∨
        (setOutgoingTeleport our (OutgoingTeleport.request
          { ref := freshRef
            data := { fromPlayerId := our.id, toPlayerId := toPlayerId, time := now } })).2 =
          [TownEvent.playerOutgoingTeleportChange (OutgoingTeleport.request
            { ref := freshRef
              data := { fromPlayerId := our.id, toPlayerId := toPlayerId, time := now } })])) := by
  constructor
  · intro habsent
    simp [emitTeleportRequest, hour, habsent]
  · intro hsession
    refine ⟨?_, ?_, ?_⟩
    · simp [emitTeleportRequest, hour, hsession]
    · rw [ourPlayer?_updateOur_const st our _ hour (setOutgoingTeleport_fst our _).2.1]
      simp only [Option.map_some']
      rw [(setOutgoingTeleport_fst our _).1]
    · exact (setOutgoingTeleport_fst our _).2.2

/-- Witness for `request_roster_guard`: in `stC2` the id `"Z"` is
absent (one failure event, state unchanged) and `"B"` is present (a
Pending record is installed and one request event sent). -/
theorem request_roster_guard_witness :
    emitTeleportRequest stC2 "Z" 9 7 =
      some (stC2, [TownEvent.socketTeleportFailed
        { fromPlayerId := ourC2.id, toPlayerId := "Z", time := 9 }]) ∧
    (ourPlayer? (updateOur stC2 (fun _ => (setOutgoingTeleport ourC2 (OutgoingTeleport.request
        { ref := 7, data := { fromPlayerId := ourC2.id, toPlayerId := "B", time := 9 } })).1))).map
        (fun p => p.outgoingTeleport) =
      some (OutgoingTeleport.request
        { ref := 7, data := { fromPlayerId := ourC2.id, toPlayerId := "B", time := 9 } }) := by
  constructor
  · exact (request_roster_guard stC2 ourC2 "Z" 9 7 (by decide)).1 (by decide)
  · exact ((request_roster_guard stC2 ourC2 "B" 9 7 (by decide)).2 (by decide)).2.1

/-! ### Claim C3: outgoing countdown reaching zero -/

/-- Claim C3 evaluation: participant A requests a teleport to B, starts
the default 30-second countdown, and 30 ticks elapse with no response.
The interval is stopped and the countdown value is cleared to
`undefined` (not 0), but the outgoing negotiation is NOT cancelled:
the zero branch calls `emitTeleportCanceled` with our own player id
(`"A"`), whose guard compares it against the outgoing record's target
(`"B"`) and fails, so the outgoing state remains the Pending record
(never a Timeout status) and no `teleportCanceled` event is sent. -/
theorem timer_expiry_leaves_outgoing_pending :
    c3Run.map (fun res =>
      ((ourPlayer? res.1).map (fun p => p.outgoingTeleport),
       (ourPlayer? res.1).map (fun p => p.outgoingTeleportTimer),
       res.1.timerIntervalActive,
       countCanceled res.2)) =
    some (some (OutgoingTeleport.request
        { ref := 20, data := { fromPlayerId := "A", toPlayerId := "B", time := 0 } }),
      some none, false, 0) := by
  decide

/-! ### Claim C4: townClosing teardown -/

/-- Claim C4 (amended): the townClosing listener notifies local
observers of the disconnect exactly once and resets the login
controller, but performs no negotiation teardown: the state (roster,
incoming lists, outgoing values, timer) is untouched and no socket
event is sent (the deny-all/cancel teardown of `_clearTeleports` runs
only in the locally-initiated `disconnect()`). -/
theorem town_closing_no_teardown (st : TownState) :
    handleTownClosing st =
      (st, [TownEvent.localDisconnect, TownEvent.setTownControllerNull]) ∧
    countDisconnect (handleTownClosing st).2 = 1 ∧
    (handleTownClosing st).2.all (fun e => !(isSocketEvent e)) = true := by
  exact ⟨rfl, rfl, rfl⟩

/-- Claim C4 counterexample: in `stC4` our player holds one incoming
request and a pending outgoing request, yet the townClosing handler
synthesizes no deny and no cancel and leaves the negotiation state in
place, contradicting the claimed teardown. -/
theorem town_closing_counterexample :
    (ourPlayer? stC4).map (fun p => (p.incomingTeleports, p.outgoingTeleport)) =
      some ([reqBA5], OutgoingTeleport.request reqAB3) ∧
    handleTownClosing stC4 =
      (stC4, [TownEvent.localDisconnect, TownEvent.setTownControllerNull]) ∧
    countDenied (handleTownClosing stC4).2 = 0 ∧
    countCanceled (handleTownClosing stC4).2 = 0 := by
  decide

/-! ### Claim C6: do-not-disturb toggle -/

/-- Claim C6 evaluation at the failing input: our player has two
pending incoming requests and one pending outgoing request.  The
toggle denies both incoming requests exactly once each, but sends zero
cancel events and leaves the outgoing record Pending: the onClick
passes our own player id to `emitTeleportCanceled`, whose guard
compares it against the outgoing record's target id and fails. -/
theorem dnd_toggle_does_not_cancel_outgoing :
    (doNotDisturbOnClick stC6).map (fun res =>
      (countDenied res.2, countCanceled res.2,
       (ourPlayer? res.1).map
         (fun p => (p.outgoingTeleport, p.incomingTeleports, p.doNotDisturb)))) =
    some (2, 0, some (OutgoingTeleport.request reqAB3, ([] : List TeleportRequestObj), true)) := by
  rfl

/-! ### Claim C5: the teleportAccepted socket listener -/

theorem setOutgoingTeleport_fst_eq (p : Player) (v : OutgoingTeleport) :
    (setOutgoingTeleport p v).1 = { p with outgoingTeleport := v } := by
  unfold setOutgoingTeleport
  by_cases h : p.outgoingTeleport ≠ v
  · simp [h]
  · rw [not_not] at h
    rw [if_neg (fun hne => hne h)]
    show p = _
    rw [← h]

theorem teleportOurPlayerTo_eq (st : TownState) (our : Player) (loc : PlayerLocation)
    (hour : ourPlayer? st = some our) (hgo : our.hasGameObjects = true) :
    teleportOurPlayerTo st loc =
      some (updateOur st (fun _ => { our with location := loc }),
        [TownEvent.socketPlayerMovement loc, TownEvent.playerMovement loc,
         TownEvent.localPlayerMoved our.ref]) := by
  unfold teleportOurPlayerTo
  simp only [hour, hgo, if_true]
  unfold emitMovement
  simp only [hour]
  simp [setLocation, hgo]

theorem teleportOurPlayerTo_throws (st : TownState) (our : Player) (loc : PlayerLocation)
    (hour : ourPlayer? st = some our) (hgo : our.hasGameObjects = false) :
    teleportOurPlayerTo st loc = none := by
  simp [teleportOurPlayerTo, hour, hgo]

/-- Claim C5: on a remote `teleportAccepted` matching the local
outgoing record (fromPlayerId is ours, toPlayerId is the current
outgoing target): if the target resolves to exactly one roster entry
and resolution does not throw, our location becomes the target's
location, the outgoing state is marked Accepted and a
`teleportSuccess` is emitted (and no failure); if the target is not
resolvable, a `teleportFailed` is emitted and our location is
unchanged; and when resolution throws (missing game objects) the
exception is caught and converted to a `teleportFailed` — the handler
is a total function, so the fault never propagates. -/
theorem teleport_accepted_handler (st : TownState) (our : Player)
    (current : TeleportRequestObj) (request : TeleportRequestData)
    (hour : ourPlayer? st = some our)
    (hfrom : request.fromPlayerId = our.id)
    (hcur : our.outgoingTeleport = OutgoingTeleport.request current)
    (hto : request.toPlayerId = current.data.toPlayerId) :
    (∀ otherPlayer,
      st.players.filter (fun player => decide (player.id = request.toPlayerId)) =
        [otherPlayer] →
      our.hasGameObjects = true →
      (ourPlayer? (handleTeleportAccepted st request).1).map (fun p => p.location) =
        some otherPlayer.location ∧
      (ourPlayer? (handleTeleportAccepted st request).1).map (fun p => p.outgoingTeleport) =
        some (OutgoingTeleport.status PreviousTeleportRequestStatus.Accepted) ∧
      TownEvent.socketTeleportSuccess request ∈ (handleTeleportAccepted st request).2 ∧
      (∀ r2, TownEvent.socketTeleportFailed r2 ∉ (handleTeleportAccepted st request).2)) ∧
    (st.players.filter (fun player => decide (player.id = request.toPlayerId)) = [] →
      (ourPlayer? (handleTeleportAccepted st request).1).map (fun p => p.location) =
        some our.location ∧
      (ourPlayer? (handleTeleportAccepted st request).1).map (fun p => p.outgoingTeleport) =
        some (OutgoingTeleport.status PreviousTeleportRequestStatus.Accepted) ∧
      TownEvent.socketTeleportFailed request ∈ (handleTeleportAccepted st request).2 ∧
      (∀ r2, TownEvent.socketTeleportSuccess r2 ∉ (handleTeleportAccepted st request).2)) ∧
    (∀ otherPlayer,
      st.players.filter (fun player => decide (player.id = request.toPlayerId)) =
        [otherPlayer] →
      our.hasGameObjects = false →
      (ourPlayer? (handleTeleportAccepted st request).1).map (fun p => p.location) =
        some our.location ∧
      TownEvent.socketTeleportFailed request ∈ (handleTeleportAccepted st request).2 ∧
      (∀ r2, TownEvent.socketTeleportSuccess r2 ∉ (handleTeleportAccepted st request).2)) := by
  have hmatch : (decide (request.fromPlayerId = our.id) &&
      (match our.outgoingTeleport with
       | OutgoingTeleport.request current2 =>
         decide (request.toPlayerId = current2.data.toPlayerId)
       | OutgoingTeleport.status _ => false)) = true := by
    rw [hcur]
    simp [hfrom, hto]
  have hour1 : ourPlayer? (updateOur st (fun _ => (setOutgoingTeleport our
      (OutgoingTeleport.status PreviousTeleportRequestStatus.Accepted)).1)) =
      some ((setOutgoingTeleport our
        (OutgoingTeleport.status PreviousTeleportRequestStatus.Accepted)).1) :=
    ourPlayer?_updateOur_const st our _ hour (setOutgoingTeleport_fst our _).2.1
  refine ⟨?_, ?_, ?_⟩
  · intro otherPlayer hfilter hgo
    have hgo1 : ((setOutgoingTeleport our
        (OutgoingTeleport.status PreviousTeleportRequestStatus.Accepted)).1).hasGameObjects
        = true := by
      rw [setOutgoingTeleport_fst_eq]
      exact hgo
    have htp := teleportOurPlayerTo_eq _ _ otherPlayer.location hour1 hgo1
    have hres : handleTeleportAccepted st request =
        (updateOur (updateOur st (fun _ => (setOutgoingTeleport our
            (OutgoingTeleport.status PreviousTeleportRequestStatus.Accepted)).1))
          (fun _ => { (setOutgoingTeleport our
            (OutgoingTeleport.status PreviousTeleportRequestStatus.Accepted)).1 with
              location := otherPlayer.location }),
         (setOutgoingTeleport our
            (OutgoingTeleport.status PreviousTeleportRequestStatus.Accepted)).2 ++
           [TownEvent.socketPlayerMovement otherPlayer.location,
            TownEvent.playerMovement otherPlayer.location,
            TownEvent.localPlayerMoved ((setOutgoingTeleport our
              (OutgoingTeleport.status PreviousTeleportRequestStatus.Accepted)).1).ref] ++
           [TownEvent.socketTeleportSuccess request]) := by
      simp only [handleTeleportAccepted, handleTeleportAcceptedBody, hour, hmatch,
        if_true, hfilter]
      rw [htp]
    have hour2 : ourPlayer? (handleTeleportAccepted st request).1 =
        some ({ (setOutgoingTeleport our
          (OutgoingTeleport.status PreviousTeleportRequestStatus.Accepted)).1 with
            location := otherPlayer.location }) := by
      rw [hres]
      exact ourPlayer?_updateOur_const _ _ _ hour1 rfl
    refine ⟨?_, ?_, ?_, ?_⟩
    · rw [hour2]
      rfl
    · rw [hour2]
      simp only [Option.map_some']
      rw [setOutgoingTeleport_fst_eq]
    · rw [hres]
      simp
    · intro r2 hmem
      rw [hres] at hmem
      rcases (setOutgoingTeleport_fst our (OutgoingTeleport.status
          PreviousTeleportRequestStatus.Accepted)).2.2 with h0 | h0 <;>
        rw [h0] at hmem <;> simp at hmem
  · intro hfilter
    have hres : handleTeleportAccepted st request =
        (updateOur st (fun _ => (setOutgoingTeleport our
            (OutgoingTeleport.status PreviousTeleportRequestStatus.Accepted)).1),
         (setOutgoingTeleport our
            (OutgoingTeleport.status PreviousTeleportRequestStatus.Accepted)).2 ++
           [TownEvent.socketTeleportFailed request]) := by
      simp only [handleTeleportAccepted, handleTeleportAcceptedBody, hour, hmatch,
        if_true, hfilter]
    have hour2 : ourPlayer? (handleTeleportAccepted st request).1 =
        some ((setOutgoingTeleport our
          (OutgoingTeleport.status PreviousTeleportRequestStatus.Accepted)).1) := by
      rw [hres]
      exact hour1
    refine ⟨?_, ?_, ?_, ?_⟩
    · rw [hour2]
      simp only [Option.map_some']
      rw [setOutgoingTeleport_fst_eq]
    · rw [hour2]
      simp only [Option.map_some']
      rw [setOutgoingTeleport_fst_eq]
    · rw [hres]
      simp
    · intro r2 hmem
      rw [hres] at hmem
      rcases (setOutgoingTeleport_fst our (OutgoingTeleport.status
          PreviousTeleportRequestStatus.Accepted)).2.2 with h0 | h0 <;>
        rw [h0] at hmem <;> simp at hmem
  · intro otherPlayer hfilter hgo
    have hgo1 : ((setOutgoingTeleport our
        (OutgoingTeleport.status PreviousTeleportRequestStatus.Accepted)).1).hasGameObjects
        = false := by
      rw [setOutgoingTeleport_fst_eq]
      exact hgo
    have htp := teleportOurPlayerTo_throws (updateOur st (fun _ => (setOutgoingTeleport our
        (OutgoingTeleport.status PreviousTeleportRequestStatus.Accepted)).1)) _
      otherPlayer.location hour1 hgo1
    have hres : handleTeleportAccepted st request =
        (updateOur st (fun _ => (setOutgoingTeleport our
            (OutgoingTeleport.status PreviousTeleportRequestStatus.Accepted)).1),
         (setOutgoingTeleport our
            (OutgoingTeleport.status PreviousTeleportRequestStatus.Accepted)).2 ++
           [TownEvent.socketTeleportFailed request]) := by
      simp only [handleTeleportAccepted, handleTeleportAcceptedBody, hour, hmatch,
        if_true, hfilter]
      rw [htp]
    have hour2 : ourPlayer? (handleTeleportAccepted st request).1 =
        some ((setOutgoingTeleport our
          (OutgoingTeleport.status PreviousTeleportRequestStatus.Accepted)).1) := by
      rw [hres]
      exact hour1
    refine ⟨?_, ?_, ?_⟩
    · rw [hour2]
      simp only [Option.map_some']
      rw [setOutgoingTeleport_fst_eq]
    · rw [hres]
      simp
    · intro r2 hmem
      rw [hres] at hmem
      rcases (setOutgoingTeleport_fst our (OutgoingTeleport.status
          PreviousTeleportRequestStatus.Accepted)).2.2 with h0 | h0 <;>
        rw [h0] at hmem <;> simp at hmem

/-- Witness for `teleport_accepted_handler`: in `stC5` B is resolvable
and our game objects exist, so A lands on B's location with a success
event; in `stC5noB` B is gone, so a failure is emitted with A's
location unchanged; in `stC5noGO` resolution throws and is converted
to a failure. -/
theorem teleport_accepted_handler_witness :
    ((ourPlayer? (handleTeleportAccepted stC5 reqAB3.data).1).map (fun p => p.location) =
        some playerB5.location ∧
      TownEvent.socketTeleportSuccess reqAB3.data ∈
        (handleTeleportAccepted stC5 reqAB3.data).2) ∧
    ((ourPlayer? (handleTeleportAccepted stC5noB reqAB3.data).1).map (fun p => p.location) =
        some ourC5.location ∧
      TownEvent.socketTeleportFailed reqAB3.data ∈
        (handleTeleportAccepted stC5noB reqAB3.data).2) ∧
    ((ourPlayer? (handleTeleportAccepted stC5noGO reqAB3.data).1).map (fun p => p.location) =
        some ourC5noGO.location ∧
      TownEvent.socketTeleportFailed reqAB3.data ∈
        (handleTeleportAccepted stC5noGO reqAB3.data).2) := by
  refine ⟨⟨?_, ?_⟩, ⟨?_, ?_⟩, ⟨?_, ?_⟩⟩
  · exact (((teleport_accepted_handler stC5 ourC5 reqAB3 reqAB3.data (by decide) (by decide)
      (by decide) (by decide)).1 playerB5 (by decide) (by decide))).1
  · exact (((teleport_accepted_handler stC5 ourC5 reqAB3 reqAB3.data (by decide) (by decide)
      (by decide) (by decide)).1 playerB5 (by decide) (by decide))).2.2.1
  · exact (((teleport_accepted_handler stC5noB ourC5 reqAB3 reqAB3.data (by decide) (by decide)
      (by decide) (by decide)).2.1 (by decide))).1
  · exact (((teleport_accepted_handler stC5noB ourC5 reqAB3 reqAB3.data (by decide) (by decide)
      (by decide) (by decide)).2.1 (by decide))).2.2.1
  · exact (((teleport_accepted_handler stC5noGO ourC5noGO reqAB3 reqAB3.data (by decide)
      (by decide) (by decide) (by decide)).2.2 playerB5 (by decide) (by decide))).1
  · exact (((teleport_accepted_handler stC5noGO ourC5noGO reqAB3 reqAB3.data (by decide)
      (by decide) (by decide) (by decide)).2.2 playerB5 (by decide) (by decide))).2.1

/-! ### Claim C9: the playerMoved socket listener -/

theorem find?_id_map (l : List Player) (pid : String) (g : Player → Player)
    (hid : ∀ p, (g p).id = p.id) :
    (l.map g).find? (fun q => decide (q.id = pid)) =
      (l.find? (fun q => decide (q.id = pid))).map g := by
  rw [List.find?_map]
  have hfun : ((fun q => decide (q.id = pid)) ∘ g) = (fun q => decide (q.id = pid)) := by
    funext p
    simp [Function.comp, hid]
  rw [hfun]

theorem map_update_location_idem (l : List Player) (r : Nat) (L : PlayerLocation) :
    ((l.map (fun q => if q.ref = r then { q with location := L } else q)).map
        (fun q => if q.ref = r then { q with location := L } else q)) =
      l.map (fun q => if q.ref = r then { q with location := L } else q) := by
  rw [List.map_map]
  congr 1
  funext q
  by_cases hq : q.ref = r <;> simp [Function.comp, hq]

/-- Claim C9: the `playerMoved` listener is idempotent for a remote
participant (applying the same event twice gives the same state as
once); for the local participant it retains the client-predicted x and
y and applies only the event's interactable-zone id; and with no
matching roster entry it inserts a new participant built from the
payload. -/
theorem player_moved_listener (st : TownState) (movedPlayer : PlayerModel)
    (p : Player) (f1 f2 : Nat) :
    (st.players.find? (fun q => decide (q.id = movedPlayer.id)) = some p →
      ¬(some p.ref = st.ourPlayerRef) →
      (handlePlayerMoved (handlePlayerMoved st movedPlayer f1).1 movedPlayer f2).1 =
        (handlePlayerMoved st movedPlayer f1).1) ∧
    (st.players.find? (fun q => decide (q.id = movedPlayer.id)) = some p →
      some p.ref = st.ourPlayerRef →
      ∃ q, (handlePlayerMoved st movedPlayer f1).1.players.find?
          (fun q2 => decide (q2.id = movedPlayer.id)) = some q ∧
        q.location.x = p.location.x ∧
        q.location.y = p.location.y ∧
        q.location.interactableID = movedPlayer.location.interactableID) ∧
    (st.players.find? (fun q => decide (q.id = movedPlayer.id)) = none →
      (handlePlayerMoved st movedPlayer f1).1.players =
        st.players ++ [fromPlayerModel movedPlayer f1]) := by
  refine ⟨?_, ?_, ?_⟩
  · intro hfind hnotour
    have hid : ∀ q, ((fun q : Player => if q.ref = p.ref then
        { q with location := movedPlayer.location } else q) q).id = q.id := by
      intro q
      by_cases hq : q.ref = p.ref <;> simp [hq]
    have h1 : (handlePlayerMoved st movedPlayer f1).1 =
        { st with players := st.players.map (fun q =>
            if q.ref = p.ref then { q with location := movedPlayer.location } else q) } := by
      simp only [handlePlayerMoved, hfind]
      rw [if_neg hnotour]
    rw [h1]
    have hfind1 : (st.players.map (fun q : Player =>
        if q.ref = p.ref then { q with location := movedPlayer.location } else q)).find?
        (fun q => decide (q.id = movedPlayer.id)) =
        some { p with location := movedPlayer.location } := by
      rw [find?_id_map _ _ _ hid, hfind]
      simp
    simp only [handlePlayerMoved, hfind1]
    rw [if_neg hnotour]
    simp only
    rw [map_update_location_idem]
  · intro hfind hour
    have h1 : (handlePlayerMoved st movedPlayer f1).1 =
        { st with players := st.players.map (fun q =>
            if q.ref = p.ref then
              { q with location :=
                  { q.location with interactableID := movedPlayer.location.interactableID } }
            else q) } := by
      simp only [handlePlayerMoved, hfind]
      rw [if_pos hour]
    have hid : ∀ q, ((fun q : Player => if q.ref = p.ref then
        { q with location :=
            { q.location with interactableID := movedPlayer.location.interactableID } }
        else q) q).id = q.id := by
      intro q
      by_cases hq : q.ref = p.ref <;> simp [hq]
    refine ⟨{ p with location :=
        { p.location with interactableID := movedPlayer.location.interactableID } },
      ?_, rfl, rfl, rfl⟩
    rw [h1]
    show (st.players.map _).find? _ = _
    rw [find?_id_map _ _ _ hid, hfind]
    simp
  · intro hfind
    simp only [handlePlayerMoved, hfind]

/-- Witness for `player_moved_listener`: in `stC2`, the remote move of
B is idempotent, the move event for our player A patches only the zone
id, and a move event for the unknown D inserts a new player. -/
theorem player_moved_listener_witness :
    ((handlePlayerMoved (handlePlayerMoved stC2 movedB 30).1 movedB 31).1 =
      (handlePlayerMoved stC2 movedB 30).1) ∧
    (∃ q, (handlePlayerMoved stC2 movedA 30).1.players.find?
        (fun q2 => decide (q2.id = movedA.id)) = some q ∧
      q.location.x = ourC2.location.x ∧
      q.location.y = ourC2.location.y ∧
      q.location.interactableID = movedA.location.interactableID) ∧
    ((handlePlayerMoved stC2 movedD 30).1.players =
      stC2.players ++ [fromPlayerModel movedD 30]) := by
  refine ⟨?_, ?_, ?_⟩
  · exact (player_moved_listener stC2 movedB playerB 30 31).1 (by decide) (by decide)
  · exact (player_moved_listener stC2 movedA ourC2 30 31).2.1 (by decide) (by decide)
  · exact (player_moved_listener stC2 movedD ourC2 30 31).2.2 (by decide)

/-! ### Claim C10: nearbyPlayers includes the local player -/

/-- Claim C10: whenever the local participant is initialized and
present in the roster, `nearbyPlayers` includes the local participant
itself: with a truthy zone id the zone comparison against itself
succeeds, and otherwise its squared distance to itself is 0, below the
80-unit threshold. -/
theorem nearby_includes_self (st : TownState) (p : Player)
    (hour : ourPlayer? st = some p) :
    ∃ l, nearbyPlayers st = some l ∧ p ∈ l := by
  have hmem : p ∈ st.players := by
    unfold ourPlayer? at hour
    cases h : st.ourPlayerRef with
    | none => simp only [h] at hour; exact Option.noConfusion hour
    | some r =>
      simp only [h] at hour
      exact List.mem_of_find?_eq_some hour
  have hself : isNearby p p = true := by
    unfold isNearby
    cases ht : truthyId p.location.interactableID
    · simp [ht, sub_self]
    · simp [ht]
  refine ⟨st.players.filter (fun q => isNearby p q), ?_, ?_⟩
  · simp [nearbyPlayers, hour]
  · exact List.mem_filter.mpr ⟨hmem, hself⟩

/-- Witness for `nearby_includes_self` at the concrete town `stC2`. -/
theorem nearby_includes_self_witness :
    ∃ l, nearbyPlayers stC2 = some l ∧ ourC2 ∈ l :=
  nearby_includes_self stC2 ourC2 (by decide)

end CoveyTown
